import Mathlib

/-!
# Verification of the two mini-games in `talk-to-github`

Shallow embedding of the simulation cores of the two game components:

* `Grid`    — `src/components/SnakeGame.tsx`  (grid-based Snake)
* `Slither` — `src/components/SlitherGame.tsx` (continuous-space Slither clone)

JavaScript numbers are modelled as `Int` for the grid game (all positions are
integer cell indices) and as `ℚ` for the continuous game (the claims under
study are about exact arithmetic structure, not floating-point rounding).
`Math.random()` results are injected as explicit parameters.  React state
updates are modelled as pure state-transition functions: each `useState`
field becomes a field of an explicit state record, and a `setX` call inside a
handler becomes the corresponding field update of the returned record, which
is faithful because the host serialises all handlers on one event queue.
-/

namespace Grid

/-- `interface Position { x: number; y: number }` (SnakeGame.tsx lines 5–8).
Grid cells are integer coordinates. -/
structure Position where
  x : Int
  y : Int
deriving DecidableEq, Repr

/-- `const GRID_SIZE = 20` (line 15). -/
def GRID_SIZE : Int := 20

/-- `const CANVAS_WIDTH = 600` (line 16). -/
def CANVAS_WIDTH : Int := 600

/-- `const CANVAS_HEIGHT = 400` (line 17). -/
def CANVAS_HEIGHT : Int := 400

/-- The four direction strings stored in the `direction` state
(`'UP' | 'DOWN' | 'LEFT' | 'RIGHT'`). -/
inductive Dir
  | up
  | down
  | left
  | right
deriving DecidableEq, Repr

/-- The 180° reverse of a direction (used only to state the spec's
no-reversal property; not part of the source). -/
def reverseDir : Dir → Dir
  | .up => .down
  | .down => .up
  | .left => .right
  | .right => .left

/-- The keyboard keys the handler at lines 108–129 distinguishes:
the four arrow keys, the spacebar, and everything else. -/
inductive Key
  | arrowUp
  | arrowDown
  | arrowLeft
  | arrowRight
  | space
  | other
deriving DecidableEq, Repr

/-- The component's `useState` fields (lines 21–26). -/
structure GameState where
  snake : List Position
  food : Position
  direction : Dir
  gameOver : Bool
  score : Int
  gameRunning : Bool
deriving DecidableEq, Repr

/-- The initial state of the component (lines 21–26):
single-segment snake at (10,10), food at (15,15), heading RIGHT. -/
def initialState : GameState :=
  { snake := [⟨10, 10⟩]
    food := ⟨15, 15⟩
    direction := .right
    gameOver := false
    score := 0
    gameRunning := false }

/-- `generateFood` (lines 28–36).  `Math.random()` is injected as the
parameters `rx ry ∈ [0,1)`.  `maxX = Math.floor(CANVAS_WIDTH / GRID_SIZE) - 1`
and the returned cell is `(⌊rx·maxX⌋, ⌊ry·maxY⌋)`. -/
def generateFood (rx ry : ℚ) : Position :=
  let maxX : Int := ⌊(CANVAS_WIDTH : ℚ) / (GRID_SIZE : ℚ)⌋ - 1
  let maxY : Int := ⌊(CANVAS_HEIGHT : ℚ) / (GRID_SIZE : ℚ)⌋ - 1
  { x := ⌊rx * (maxX : ℚ)⌋
    y := ⌊ry * (maxY : ℚ)⌋ }

/-- `resetGame` (lines 38–45), with the `generateFood` randomness injected. -/
def resetGame (rx ry : ℚ) : GameState :=
  { snake := [⟨10, 10⟩]
    food := generateFood rx ry
    direction := .right
    gameOver := false
    score := 0
    gameRunning := false }

/-- `startGame` (lines 47–51): sets `gameRunning` only when neither running
nor game-over. -/
def startGame (st : GameState) : GameState :=
  if !st.gameRunning && !st.gameOver then { st with gameRunning := true } else st

/-- The `switch (direction)` head offset in `moveSnake` (lines 60–73). -/
def nextHead (d : Dir) (h : Position) : Position :=
  match d with
  | .up => { h with y := h.y - 1 }
  | .down => { h with y := h.y + 1 }
  | .left => { h with x := h.x - 1 }
  | .right => { h with x := h.x + 1 }

/-- The wall-collision test of `moveSnake` (lines 76–81):
`head.x < 0 || head.x >= CANVAS_WIDTH / GRID_SIZE || head.y < 0 ||
head.y >= CANVAS_HEIGHT / GRID_SIZE`. -/
def hitsWall (p : Position) : Bool :=
  decide (p.x < 0) || decide (CANVAS_WIDTH / GRID_SIZE ≤ p.x) ||
    decide (p.y < 0) || decide (CANVAS_HEIGHT / GRID_SIZE ≤ p.y)

/-- The self-collision test of `moveSnake` (line 88): `newSnake.some(segment =>
segment.x === head.x && segment.y === head.y)`, evaluated on the copy of the
pre-move body (the head has not been unshifted yet, the tail not popped). -/
def selfHit (body : List Position) (head : Position) : Bool :=
  body.any fun segment => decide (segment.x = head.x) && decide (segment.y = head.y)

/-- `moveSnake` (lines 53–106).  One fixed-interval tick: early-returns unless
running; offsets the head one cell in the current direction; wall collision and
self collision each end the game leaving the snake as it was; otherwise the
new head is unshifted and, unless it sits on the food, the tail is popped.
On a food hit the food is regenerated (randomness `rx ry`) and the score grows
by 10.  The `[]` case cannot arise (the snake starts with one segment and the
tail is only popped after a head is unshifted); it returns the state unchanged. -/
def moveSnake (rx ry : ℚ) (st : GameState) : GameState :=
  if !st.gameRunning || st.gameOver then st else
  match st.snake with
  | [] => st
  | h :: rest =>
    let head := nextHead st.direction h
    if hitsWall head then
      { st with gameOver := true, gameRunning := false }
    else if selfHit (h :: rest) head then
      { st with gameOver := true, gameRunning := false }
    else if decide (head.x = st.food.x) && decide (head.y = st.food.y) then
      { st with snake := head :: h :: rest
                food := generateFood rx ry
                score := st.score + 10 }
    else
      { st with snake := (head :: h :: rest).dropLast }

/-- `handleKeyPress` (lines 108–129).  Early-returns when idle (neither
running nor game-over); each arrow key sets the direction unless it is the
direct reverse of the current direction; spacebar calls `startGame`. -/
def handleKeyPress (st : GameState) (k : Key) : GameState :=
  if !st.gameRunning && !st.gameOver then st else
  match k with
  | .arrowUp => if st.direction ≠ .down then { st with direction := .up } else st
  | .arrowDown => if st.direction ≠ .up then { st with direction := .down } else st
  | .arrowLeft => if st.direction ≠ .right then { st with direction := .left } else st
  | .arrowRight => if st.direction ≠ .left then { st with direction := .right } else st
  | .space => startGame st
  | .other => st

end Grid

namespace Slither

/-- `interface Position` (SlitherGame.tsx lines 5–8); continuous world
coordinates, modelled over `ℚ`. -/
structure Position where
  x : ℚ
  y : ℚ
deriving DecidableEq, Repr

/-- `interface Food` (lines 20–25): a world position plus cosmetic colour and
a radius `size` (generated in `(3, 6)`). -/
structure Food where
  x : ℚ
  y : ℚ
  color : String
  size : ℚ
deriving DecidableEq, Repr

/-- `interface Snake` (lines 10–18).  `direction` is an angle in radians; the
per-frame update only ever consumes it through `Math.cos`/`Math.sin`, so the
frame function below takes the cosine and sine of the (already steered)
direction as explicit parameters `c` and `s` — trigonometric functions over
`ℝ` are not executable, and none of the claims under study constrain them. -/
structure Snake where
  id : String
  segments : List Position
  color : String
  isPlayer : Bool
  direction : ℚ
  speed : ℚ
  isDead : Bool
deriving DecidableEq, Repr

/-- `const WORLD_WIDTH = 2000` (line 29). -/
def WORLD_WIDTH : ℚ := 2000

/-- `const WORLD_HEIGHT = 1500` (line 30). -/
def WORLD_HEIGHT : ℚ := 1500

/-- `const SEGMENT_SIZE = 8` (line 31). -/
def SEGMENT_SIZE : ℚ := 8

/-- `const FOOD_COUNT = 200` (line 32). -/
def FOOD_COUNT : Nat := 200

/-- `const AI_SNAKE_COUNT = 5` (line 33). -/
def AI_SNAKE_COUNT : Nat := 5

/-- `createSnake` (lines 60–75): five segments trailing leftwards from
`(x, y)`, one `SEGMENT_SIZE` apart.  The random colour and random initial
direction are injected as parameters. -/
def createSnake (x y : ℚ) (isPlayer : Bool) (id : String) (color : String)
    (direction : ℚ) : Snake :=
  { id := id
    segments := (List.range 5).map fun i => ⟨x - i * SEGMENT_SIZE, y⟩
    color := color
    isPlayer := isPlayer
    direction := direction
    speed := 2
    isDead := false }

/-- The food-consumption test at lines 161–162:
`Math.sqrt((food.x - head.x)² + (food.y - head.y)²) < SEGMENT_SIZE + food.size`.
Both sides of the source comparison are nonnegative (`generateFood` and the
replacement-food literal both produce `size = 3 + Math.random() * 3 > 0`), so
`√d < r ↔ d < r²`; comparing the squares keeps the definition inside `ℚ`. -/
def eatsFood (head : Position) (f : Food) : Bool :=
  decide ((f.x - head.x) ^ 2 + (f.y - head.y) ^ 2 < (SEGMENT_SIZE + f.size) ^ 2)

/-- The food phase of `updateSnake` (lines 158–177):

```js
foodRef.current = foodRef.current.filter(food => {
  if (distance < SEGMENT_SIZE + food.size) {
    ate = true; ...
    foodRef.current.push({ ...replacement... });   // line 168
    return false;
  }
  return true;
});
```

`Array.prototype.filter` fixes the index range it visits before the first
callback runs, and its result array contains only visited elements for which
the callback returned true.  The `push` on line 168 appends the replacement
food to the *pre-assignment* array, past that visited range, and the
assignment on line 160 then replaces `foodRef.current` with the filter result
— so every pushed replacement is discarded together with the old array.  The
embedding returns the kept originals paired with the number of replacements
that were pushed and lost this frame (equivalently, the number of foods
consumed). -/
def foodScan (head : Position) : List Food → List Food × Nat
  | [] => ([], 0)
  | f :: fs =>
    let (kept, lost) := foodScan head fs
    if eatsFood head f then (kept, lost + 1) else (f :: kept, lost)

/-- The movement step of `updateSnake` (lines 147–154): advance the head by
`(cos(direction)·speed, sin(direction)·speed)` and clamp each coordinate with
`Math.max(SEGMENT_SIZE, Math.min(worldDim - SEGMENT_SIZE, ·))`.  `c` and `s`
are the cosine and sine of `snake.direction`. -/
def advanceHead (h : Position) (c s speed : ℚ) : Position :=
  { x := max SEGMENT_SIZE (min (WORLD_WIDTH - SEGMENT_SIZE) (h.x + c * speed))
    y := max SEGMENT_SIZE (min (WORLD_HEIGHT - SEGMENT_SIZE) (h.y + s * speed)) }

/-- The movement and food phases of `updateSnake` (lines 134–181), for one
snake against the current food array: dead snakes are skipped (line 135); the
clamped new head is unshifted onto the segments (line 156); the food array is
filtered as described at `foodScan`; if nothing was eaten the tail is popped
(lines 179–181).  Returns the updated snake and the new food array.  Omitted
parts of `updateSnake`: the `updateAI` steering (line 137) and the
player-direction update (lines 140–145) only rewrite `snake.direction`, whose
cosine and sine enter here as `c` and `s`; the score update (line 165) and the
inter-snake collision phase (lines 183–199) touch neither the segments nor
the food array.  The `[]` segments case cannot arise (`createSnake` makes
five segments and the tail is only popped after a head is unshifted). -/
def updateSnakeMoveAndFood (c s : ℚ) (sn : Snake) (foods : List Food) :
    Snake × List Food :=
  if sn.isDead then (sn, foods) else
  match sn.segments with
  | [] => (sn, foods)
  | h0 :: rest =>
    let head := advanceHead h0 c s sn.speed
    let segs := head :: h0 :: rest
    let scan := foodScan head foods
    ({ sn with segments := if scan.2 = 0 then segs.dropLast else segs }, scan.1)

/-- The dead-snake replacement phase of `gameLoop` (lines 217–230):

```js
snakesRef.current = snakesRef.current.filter(snake => {
  if (!snake.isPlayer && snake.isDead) {
    snakesRef.current.push(createSnake(...));      // line 221
    return false;
  }
  return true;
});
```

The same filter/push pattern as the food phase: the freshly created
replacement snake is pushed onto the pre-assignment array past the index
range the filter visits, and the assignment then discards that array, so the
replacement never reaches `snakesRef.current`.  The embedding returns the
kept snakes paired with the number of replacements pushed and lost (the
`fresh` parameter stands for the `createSnake(Math.random()·…, …)` results,
which never survive). -/
def replaceDeadScan (fresh : Snake) : List Snake → List Snake × Nat
  | [] => ([], 0)
  | s :: ss =>
    let (kept, lost) := replaceDeadScan fresh ss
    if !s.isPlayer && s.isDead then (kept, lost + 1) else (s :: kept, lost)

end Slither

/-! ## Concrete states used to evaluate the dynamics -/

namespace Grid

/-- A running state one tick into a game: single segment at (5,5), heading
RIGHT, food far away. -/
def stRun : GameState :=
  { snake := [⟨5, 5⟩], food := ⟨15, 15⟩, direction := .right
    gameOver := false, score := 0, gameRunning := true }

/-- A running state about to eat: head at (10,10) heading RIGHT, food at
(11,10) (the scenario of spec §8). -/
def stEat : GameState :=
  { snake := [⟨10, 10⟩], food := ⟨11, 10⟩, direction := .right
    gameOver := false, score := 0, gameRunning := true }

/-- A running state where the food sits on the snake's second segment and the
head is about to move onto it: `generateFood` never checks the snake, so the
food can occupy a body cell. -/
def stFoodOnBody : GameState :=
  { snake := [⟨10, 10⟩, ⟨11, 10⟩], food := ⟨11, 10⟩, direction := .right
    gameOver := false, score := 0, gameRunning := true }

/-- A running state whose next head cell (10,11) is the current tail. -/
def stTailHit : GameState :=
  { snake := [⟨10, 10⟩, ⟨10, 11⟩], food := ⟨15, 15⟩, direction := .down
    gameOver := false, score := 0, gameRunning := true }

/-- A running state at the right wall: the next head cell is (30,10), outside
the 30×20 grid. -/
def stWall : GameState :=
  { snake := [⟨29, 10⟩], food := ⟨15, 15⟩, direction := .right
    gameOver := false, score := 0, gameRunning := true }

/-- A game-over state (as produced by a wall collision from `stWall`). -/
def stOver : GameState :=
  { snake := [⟨29, 10⟩], food := ⟨15, 15⟩, direction := .right
    gameOver := true, score := 0, gameRunning := false }

end Grid

namespace Slither

/-- The player snake at (100,100), with the five trailing segments
`createSnake 100 100 true "player"` produces. -/
def exSnake : Snake :=
  { id := "player"
    segments := [⟨100, 100⟩, ⟨92, 100⟩, ⟨84, 100⟩, ⟨76, 100⟩, ⟨68, 100⟩]
    color := "", isPlayer := true, direction := 0, speed := 2, isDead := false }

/-- A non-player snake at `(x, y)` with a single segment and the given id. -/
def mkAI (x y : ℚ) (id : String) : Snake :=
  { id := id, segments := [⟨x, y⟩], color := "", isPlayer := false
    direction := 0, speed := 2, isDead := false }

/-- A food item 2 world units right of (100,100), radius 4: inside eating
range of a head at (102,100). -/
def nearFood : Food := ⟨102, 100, "", 4⟩

/-- A food item far from everything. -/
def farFood : Food := ⟨1000, 1000, "", 3⟩

/-- A 200-item food array (the `FOOD_COUNT` pool) with exactly one item in
eating range of `exSnake`'s next head position. -/
def exFoods : List Food := nearFood :: List.replicate 199 farFood

/-- A freshly spawned AI snake, standing for the `createSnake` result pushed
by the replacement phase. -/
def freshSnake : Snake := mkAI 500 500 "ai_new"

/-- An AI snake that died this frame. -/
def deadAI : Snake := { mkAI 300 300 "ai_1" with isDead := true }

/-- A six-snake population (1 player + `AI_SNAKE_COUNT`) in which exactly one
AI snake is dead. -/
def exSnakes : List Snake :=
  [exSnake, deadAI, mkAI 100 100 "ai_0", mkAI 200 200 "ai_2",
   mkAI 300 400 "ai_3", mkAI 400 500 "ai_4"]

/-- Unfolding lemma for `foodScan` on a cons cell, with the recursive call
exposed through projections. -/
theorem foodScan_cons (head : Position) (f : Food) (fs : List Food) :
    foodScan head (f :: fs) =
      if eatsFood head f then ((foodScan head fs).1, (foodScan head fs).2 + 1)
      else (f :: (foodScan head fs).1, (foodScan head fs).2) := by
  rcases h : foodScan head fs with ⟨kept, lost⟩
  simp [foodScan, h]

/-- `foodScan` leaves a block of out-of-range foods untouched. -/
theorem foodScan_replicate (head : Position) (f : Food) (n : Nat)
    (h : eatsFood head f = false) :
    foodScan head (List.replicate n f) = (List.replicate n f, 0) := by
  induction n with
  | zero => rfl
  | succ n ih => rw [List.replicate_succ, foodScan_cons, h, ih]; simp

end Slither

/-! ## Claims about the Slither game -/

namespace Slither

/-- Claim C1: the spec asserts the food pool size is invariant (one food
spawned per one consumed, holding the pool at `FOOD_COUNT = 200`).  The code
violates it: the replacement food is pushed onto the array that the `filter`
is traversing, beyond the index range the filter visits, and the filter's
result — which then overwrites `foodRef.current` — omits it, so consuming a
food shrinks the pool.  Here a 200-food pool with exactly one item in eating
range of the new head ends the frame with 199 foods. -/
theorem C1_food_pool_shrinks :
    exFoods.length = FOOD_COUNT ∧
    eatsFood (advanceHead ⟨100, 100⟩ 1 0 2) nearFood = true ∧
    (updateSnakeMoveAndFood 1 0 exSnake exFoods).2.length = FOOD_COUNT - 1 := by
  have hadv : advanceHead ⟨100, 100⟩ 1 0 2 = ⟨102, 100⟩ := by
    simp only [advanceHead, SEGMENT_SIZE, WORLD_WIDTH, WORLD_HEIGHT]
    norm_num [max_def, min_def]
  have hnear : eatsFood (⟨102, 100⟩ : Position) nearFood = true := by
    simp only [eatsFood, nearFood, SEGMENT_SIZE]
    norm_num
  have hfar : eatsFood (⟨102, 100⟩ : Position) farFood = false := by
    simp only [eatsFood, farFood, SEGMENT_SIZE]
    norm_num
  have hfood : foodScan (⟨102, 100⟩ : Position) exFoods =
      (List.replicate 199 farFood, 1) := by
    rw [exFoods, foodScan_cons, foodScan_replicate _ _ _ hfar, hnear]
    simp
  refine ⟨rfl, by rw [hadv]; exact hnear, ?_⟩
  have hstep : updateSnakeMoveAndFood 1 0 exSnake exFoods =
      ({ exSnake with segments := Position.mk 102 100 :: exSnake.segments },
        List.replicate 199 farFood) := by
    simp only [updateSnakeMoveAndFood, exSnake]
    simp only [hadv, hfood]
    simp [exSnake]
  rw [hstep]
  show (List.replicate 199 farFood).length = FOOD_COUNT - 1
  rw [List.length_replicate]
  rfl

/-- Claim C2: the spec asserts dead non-player actors are removed and
immediately replaced, keeping the population at 1 + `AI_SNAKE_COUNT` = 6.
The code violates it with the same filter/push pattern as the food phase: the
replacement snake is pushed onto the discarded pre-filter array, so a frame
in which one AI snake died ends with 5 actors. -/
theorem C2_population_shrinks :
    exSnakes.length = 1 + AI_SNAKE_COUNT ∧
    deadAI ∈ exSnakes ∧ deadAI.isPlayer = false ∧ deadAI.isDead = true ∧
    (replaceDeadScan freshSnake exSnakes).1.length = AI_SNAKE_COUNT := by
  refine ⟨rfl, ?_, rfl, rfl, ?_⟩
  · unfold exSnakes
    exact List.mem_cons_of_mem _ (List.mem_cons_self _ _)
  · simp [replaceDeadScan, exSnakes, deadAI, mkAI, exSnake, AI_SNAKE_COUNT]

/-- Claim C6: for every living actor, the frame update advances the head to
the previous head plus `(speed·cos(direction), speed·sin(direction))` — `c`
and `s` stand for that cosine and sine — with the x-coordinate clamped to
`[SEGMENT_SIZE, WORLD_WIDTH − SEGMENT_SIZE] = [8, 1992]` and the
y-coordinate to `[SEGMENT_SIZE, WORLD_HEIGHT − SEGMENT_SIZE] = [8, 1492]`
(no wraparound), and prepends this clamped head to the segment sequence
(whose original tail is popped afterwards only on a non-eating frame). -/
theorem C6_head_clamped_prepend (c s : ℚ) (sn : Snake) (foods : List Food)
    (h0 : Position) (rest : List Position)
    (hd : sn.isDead = false) (hs : sn.segments = h0 :: rest) :
    (updateSnakeMoveAndFood c s sn foods).1.segments.head? =
      some ⟨max 8 (min 1992 (h0.x + c * sn.speed)),
            max 8 (min 1492 (h0.y + s * sn.speed))⟩ ∧
    ((updateSnakeMoveAndFood c s sn foods).1.segments.tail = h0 :: rest ∨
      (updateSnakeMoveAndFood c s sn foods).1.segments.tail =
        (h0 :: rest).dropLast) := by
  simp only [updateSnakeMoveAndFood, hd, hs]
  have hclamp : advanceHead h0 c s sn.speed =
      ⟨max 8 (min 1992 (h0.x + c * sn.speed)),
        max 8 (min 1492 (h0.y + s * sn.speed))⟩ := by
    simp only [advanceHead, SEGMENT_SIZE, WORLD_WIDTH, WORLD_HEIGHT]
    norm_num
  rw [← hclamp]
  by_cases hz : (foodScan (advanceHead h0 c s sn.speed) foods).2 = 0
  · refine ⟨?_, Or.inr ?_⟩ <;> simp [hz, List.dropLast]
  · refine ⟨?_, Or.inl ?_⟩ <;> simp [hz]

/-- Witness for C6 at a concrete input: the player snake at (100,100) with
cos = 1, sin = 0 and speed 2 moves its head to (100 + 1·2, 100 + 0·2),
clamped inside the world, and the head is prepended. -/
theorem C6_head_clamped_prepend_witness :
    (updateSnakeMoveAndFood 1 0 exSnake []).1.segments.head? =
      some ⟨max 8 (min 1992 ((100 : ℚ) + 1 * 2)),
            max 8 (min 1492 ((100 : ℚ) + 0 * 2))⟩ ∧
    ((updateSnakeMoveAndFood 1 0 exSnake []).1.segments.tail =
        [⟨100, 100⟩, ⟨92, 100⟩, ⟨84, 100⟩, ⟨76, 100⟩, ⟨68, 100⟩] ∨
      (updateSnakeMoveAndFood 1 0 exSnake []).1.segments.tail =
        ([⟨100, 100⟩, ⟨92, 100⟩, ⟨84, 100⟩, ⟨76, 100⟩, ⟨68, 100⟩] :
          List Position).dropLast) :=
  C6_head_clamped_prepend 1 0 exSnake [] ⟨100, 100⟩
    [⟨92, 100⟩, ⟨84, 100⟩, ⟨76, 100⟩, ⟨68, 100⟩] rfl rfl

end Slither

/-! ## Claims about the grid Snake game -/

namespace Grid

/-- The componentwise food-collision / position test used by `moveSnake`
agrees with equality of positions. -/
theorem pos_componentwise_eq (p q : Position) :
    (decide (p.x = q.x) && decide (p.y = q.y)) = true ↔ p = q := by
  cases p
  cases q
  simp [Position.mk.injEq]

/-- Claim C3 fails as stated: `generateFood` never checks the snake's body,
so the food can occupy an occupied cell, and the self-collision check runs
before the food check.  In `stFoodOnBody` the game is running, the new head
cell (11,10) equals the food cell, yet the tick ends the game with the snake
length unchanged instead of growing by 1. -/
theorem C3_counterexample :
    stFoodOnBody.gameRunning = true ∧ stFoodOnBody.gameOver = false ∧
    stFoodOnBody.snake.head? = some ⟨10, 10⟩ ∧
    nextHead stFoodOnBody.direction ⟨10, 10⟩ = stFoodOnBody.food ∧
    (moveSnake 0 0 stFoodOnBody).snake.length = stFoodOnBody.snake.length ∧
    (moveSnake 0 0 stFoodOnBody).gameOver = true := by
  refine ⟨rfl, rfl, rfl, rfl, rfl, rfl⟩

/-- Claim C3, amended: on every tick taken while running and not game-over,
the snake length is non-decreasing; it grows by exactly 1 when the new head
is inside the grid, off the pre-move body, and on the food cell, and is
unchanged on every other tick (including the collision ticks that end the
game). -/
theorem C3_length_step (rx ry : ℚ) (st : GameState) (h : Position)
    (rest : List Position) (hrun : st.gameRunning = true)
    (hov : st.gameOver = false) (hs : st.snake = h :: rest) :
    (moveSnake rx ry st).snake.length =
      if hitsWall (nextHead st.direction h) = false ∧
          selfHit st.snake (nextHead st.direction h) = false ∧
          nextHead st.direction h = st.food
      then st.snake.length + 1 else st.snake.length := by
  simp only [moveSnake, hrun, hov, hs]
  by_cases hw : hitsWall (nextHead st.direction h) = true
  · have hcond : ¬(hitsWall (nextHead st.direction h) = false ∧
        selfHit (h :: rest) (nextHead st.direction h) = false ∧
        nextHead st.direction h = st.food) := by
      rintro ⟨h1, -, -⟩
      rw [hw] at h1
      cases h1
    conv_rhs => rw [if_neg hcond]
    simp [hw]
  · by_cases hsc : selfHit (h :: rest) (nextHead st.direction h) = true
    · have hcond : ¬(hitsWall (nextHead st.direction h) = false ∧
          selfHit (h :: rest) (nextHead st.direction h) = false ∧
          nextHead st.direction h = st.food) := by
        rintro ⟨-, h2, -⟩
        rw [hsc] at h2
        cases h2
      conv_rhs => rw [if_neg hcond]
      simp [hw, hsc]
    · by_cases hf : nextHead st.direction h = st.food
      · have hb := (pos_componentwise_eq (nextHead st.direction h) st.food).mpr hf
        have hcond : hitsWall (nextHead st.direction h) = false ∧
            selfHit (h :: rest) (nextHead st.direction h) = false ∧
            nextHead st.direction h = st.food :=
          ⟨Bool.eq_false_iff.mpr hw, Bool.eq_false_iff.mpr hsc, hf⟩
        conv_rhs => rw [if_pos hcond]
        simp [hw, hsc, hb]
      · have hb : ¬((decide ((nextHead st.direction h).x = st.food.x) &&
            decide ((nextHead st.direction h).y = st.food.y)) = true) := by
          intro hb'
          exact hf ((pos_componentwise_eq _ _).mp hb')
        have hcond : ¬(hitsWall (nextHead st.direction h) = false ∧
            selfHit (h :: rest) (nextHead st.direction h) = false ∧
            nextHead st.direction h = st.food) := fun hc => hf hc.2.2
        conv_rhs => rw [if_neg hcond]
        simp [hw, hsc, hb, List.dropLast]

/-- Witness for the amended C3 at a concrete input: the spec §8 scenario —
head (10,10) heading RIGHT with food at (11,10) grows the snake to length 2. -/
theorem C3_length_step_witness :
    (moveSnake (1 / 2) (1 / 2) stEat).snake.length = stEat.snake.length + 1 := by
  have h := C3_length_step (1 / 2) (1 / 2) stEat ⟨10, 10⟩ [] rfl rfl rfl
  rw [if_pos (by refine ⟨rfl, rfl, rfl⟩)] at h
  exact h

/-- Claim C4 fails as stated: each key event is guarded only against the
*current* buffered direction, so two key presses between consecutive ticks
can produce a 180° reversal.  Starting from a running state heading RIGHT,
one tick is taken with RIGHT, then ArrowUp followed by ArrowLeft are both
accepted, and the next tick would use LEFT = reverse of RIGHT. -/
theorem C4_counterexample :
    stRun.direction = Dir.right ∧
    (moveSnake 0 0 stRun).direction = Dir.right ∧
    (moveSnake 0 0 stRun).gameRunning = true ∧
    (handleKeyPress (handleKeyPress (moveSnake 0 0 stRun) .arrowUp)
        .arrowLeft).direction = reverseDir Dir.right := by
  refine ⟨rfl, rfl, rfl, rfl⟩

/-- Claim C4, amended: a *single* key event can never turn the direction into
the direct opposite of the direction current when the event is handled; a
reversal across two ticks needs at least two buffered key events. -/
theorem C4_no_single_event_reversal (st : GameState) (k : Key) :
    (handleKeyPress st k).direction ≠ reverseDir st.direction := by
  obtain ⟨sn, f, d, go, sc, gr⟩ := st
  cases d <;> cases k <;> cases go <;> cases gr <;>
    simp [handleKeyPress, startGame, reverseDir]

/-- Claim C5: a tick whose new head cell leaves the 30×20 grid ends the game
(`gameOver := true`, `gameRunning := false`) and leaves the snake segments,
the food position and the score untouched. -/
theorem C5_wall_collision_game_over (rx ry : ℚ) (st : GameState)
    (h : Position) (rest : List Position)
    (hrun : st.gameRunning = true) (hov : st.gameOver = false)
    (hs : st.snake = h :: rest)
    (hw : hitsWall (nextHead st.direction h) = true) :
    (moveSnake rx ry st).gameOver = true ∧
    (moveSnake rx ry st).gameRunning = false ∧
    (moveSnake rx ry st).snake = st.snake ∧
    (moveSnake rx ry st).food = st.food ∧
    (moveSnake rx ry st).score = st.score := by
  simp only [moveSnake, hrun, hov, hs]
  simp [hw]

/-- Witness for C5 at a concrete input: head at (29,10) heading RIGHT moves
to (30,10), which is outside the grid (x ≥ 30). -/
theorem C5_wall_collision_game_over_witness :
    (moveSnake 0 0 stWall).gameOver = true ∧
    (moveSnake 0 0 stWall).gameRunning = false ∧
    (moveSnake 0 0 stWall).snake = stWall.snake ∧
    (moveSnake 0 0 stWall).food = stWall.food ∧
    (moveSnake 0 0 stWall).score = stWall.score :=
  C5_wall_collision_game_over 0 0 stWall ⟨29, 10⟩ [] rfl rfl rfl (by decide)

/-- Claim C7 fails in the code: the spacebar branch of `handleKeyPress` only
calls `startGame`, which refuses to change anything while the game is
running, so spacebar never pauses; and because the handler early-returns in
the idle state, spacebar cannot even start the game — contradicting the
component's own on-screen text "Press SPACE to start/pause". -/
theorem C7_space_never_pauses :
    stRun.gameRunning = true ∧ stRun.gameOver = false ∧
    handleKeyPress stRun .space = stRun ∧
    initialState.gameRunning = false ∧ initialState.gameOver = false ∧
    handleKeyPress initialState .space = initialState := by
  refine ⟨rfl, rfl, rfl, rfl, rfl, rfl⟩

/-- Claim C8 fails as stated: `startGame` requires `!gameOver`, so invoking
it from a game-over state changes nothing; the game stays non-running. -/
theorem C8_counterexample :
    stOver.gameOver = true ∧ stOver.gameRunning = false ∧
    startGame stOver = stOver ∧ (startGame stOver).gameRunning = false := by
  refine ⟨rfl, rfl, rfl, rfl⟩

/-- Claim C8, amended: `startGame` starts the game exactly from the idle
state (neither running nor game-over); from a game-over state it is a no-op,
and the restart affordance instead goes through `resetGame`, which returns to
idle. -/
theorem C8_start_only_from_idle (st : GameState) :
    (st.gameRunning = false → st.gameOver = false →
      startGame st = { st with gameRunning := true }) ∧
    (st.gameOver = true → startGame st = st) := by
  constructor
  · intro h1 h2
    simp [startGame, h1, h2]
  · intro h
    simp [startGame, h]

/-- Witness for the amended C8 at concrete inputs: start succeeds from the
idle initial state and is a no-op from a game-over state. -/
theorem C8_start_only_from_idle_witness :
    startGame initialState = { initialState with gameRunning := true } ∧
    startGame stOver = stOver :=
  ⟨(C8_start_only_from_idle initialState).1 rfl rfl,
   (C8_start_only_from_idle stOver).2 rfl⟩

/-- Claim C9: the self-collision test runs against the pre-move body before
the tail is removed, so a new head that lands on the current tail cell ends
the game even though a non-eating tick would have vacated that cell. -/
theorem C9_tail_cell_collision (rx ry : ℚ) (st : GameState) (h : Position)
    (rest : List Position) (hrun : st.gameRunning = true)
    (hov : st.gameOver = false) (hs : st.snake = h :: rest)
    (_hlen : 2 ≤ st.snake.length)
    (ht : st.snake.getLast? = some (nextHead st.direction h)) :
    (moveSnake rx ry st).gameOver = true ∧
    (moveSnake rx ry st).gameRunning = false ∧
    (moveSnake rx ry st).snake = st.snake := by
  have hmem : nextHead st.direction h ∈ st.snake := List.mem_of_mem_getLast? ht
  have hself : selfHit (h :: rest) (nextHead st.direction h) = true := by
    rw [← hs]
    unfold selfHit
    rw [List.any_eq_true]
    exact ⟨_, hmem, by simp⟩
  simp only [moveSnake, hrun, hov, hs]
  by_cases hw : hitsWall (nextHead st.direction h) = true
  · simp [hw]
  · simp [hw, hself]

/-- Witness for C9 at a concrete input: snake [(10,10),(10,11)] heading DOWN
on a non-eating tick — the new head (10,11) is the current tail, and the tick
ends the game with the snake unchanged. -/
theorem C9_tail_cell_collision_witness :
    (moveSnake 0 0 stTailHit).gameOver = true ∧
    (moveSnake 0 0 stTailHit).gameRunning = false ∧
    (moveSnake 0 0 stTailHit).snake = stTailHit.snake :=
  C9_tail_cell_collision 0 0 stTailHit ⟨10, 10⟩ [⟨10, 11⟩] rfl rfl rfl
    (by decide) (by decide)

/-- Claim C10: every food cell returned by `generateFood` lies in
`[0,28] × [0,18]` — the rightmost column x = 29 and bottom row y = 19 of the
30×20 grid are never used — and the result is not checked against the snake:
with suitable random draws the food lands exactly on the initial snake's
occupied cell (10,10). -/
theorem C10_generateFood_bounds (rx ry : ℚ)
    (hx0 : 0 ≤ rx) (hx1 : rx < 1) (hy0 : 0 ≤ ry) (hy1 : ry < 1) :
    (0 ≤ (generateFood rx ry).x ∧ (generateFood rx ry).x ≤ 28 ∧
      0 ≤ (generateFood rx ry).y ∧ (generateFood rx ry).y ≤ 18) ∧
    generateFood (10 / 29) (10 / 19) ∈ initialState.snake := by
  have hmx : (⌊(CANVAS_WIDTH : ℚ) / (GRID_SIZE : ℚ)⌋ : ℤ) = 30 := by
    norm_num [CANVAS_WIDTH, GRID_SIZE]
  have hmy : (⌊(CANVAS_HEIGHT : ℚ) / (GRID_SIZE : ℚ)⌋ : ℤ) = 20 := by
    norm_num [CANVAS_HEIGHT, GRID_SIZE]
  constructor
  · simp only [generateFood, hmx, hmy]
    refine ⟨?_, ?_, ?_, ?_⟩
    · exact Int.floor_nonneg.mpr (mul_nonneg hx0 (by positivity))
    · refine Int.lt_add_one_iff.mp (Int.floor_lt.mpr ?_)
      push_cast
      have := mul_lt_mul_of_pos_right hx1 (show (0 : ℚ) < 29 by norm_num)
      linarith
    · exact Int.floor_nonneg.mpr (mul_nonneg hy0 (by positivity))
    · refine Int.lt_add_one_iff.mp (Int.floor_lt.mpr ?_)
      push_cast
      have := mul_lt_mul_of_pos_right hy1 (show (0 : ℚ) < 19 by norm_num)
      linarith
  · simp only [generateFood, hmx, hmy, initialState, List.mem_singleton,
      Position.mk.injEq]
    norm_num

/-- Witness for C10 at a concrete input: the draws rx = ry = 1/2 satisfy the
range hypotheses. -/
theorem C10_generateFood_bounds_witness :
    (0 ≤ (generateFood (1 / 2) (1 / 2)).x ∧
      (generateFood (1 / 2) (1 / 2)).x ≤ 28 ∧
      0 ≤ (generateFood (1 / 2) (1 / 2)).y ∧
      (generateFood (1 / 2) (1 / 2)).y ≤ 18) ∧
    generateFood (10 / 29) (10 / 19) ∈ initialState.snake :=
  C10_generateFood_bounds (1 / 2) (1 / 2) (by norm_num) (by norm_num)
    (by norm_num) (by norm_num)

end Grid
